import Mathlib

/-!
Shallow embedding of the django-mama-cas views (`mama_cas/views.py`) and of
the ticket-consumption contract, with theorems checking the natural-language
specification against the code.
-/

namespace MamaCas

/-! ## Tickets

`ServiceTicket.objects.create_ticket(service=..., user=..., primary=...)` is
called from `LoginView.form_valid` (with `primary=True`), from `LoginView.get`
and from the four `OAuthView.do_*` federation handlers (without `primary`).
The ticket record as visible from the views: target service, owning user,
`primary` flag and the opaque token string. -/

structure STicket where
  service : String
  userName : String
  primary : Bool
  token : String
deriving DecidableEq

/-- Modelled from the spec: `ServiceTicket.objects.create_ticket` lives in
`mama_cas/models.py`, which is not among the sources. Per the spec (§3:
"`primary=true` only on tickets created from the direct presentation of
credentials ...; tickets created from an existing SSO session are
`primary=false`"), the `primary` flag is `false` unless the caller passes
`primary=True`; call sites that omit it pass `false` here explicitly. The
freshly generated high-entropy token is supplied as the `token` argument. -/
def create_ticket (service userName token : String) (primary : Bool) : STicket :=
  { service := service, userName := userName, primary := primary, token := token }

/-! ## TicketAuthority.consume

Modelled from the spec (§4.1): `consume(token, expectedKind, service,
requireRenew)` fails `Expired` past TTL, `ServiceMismatch` when the requesting
service differs from the issuance-time service, `StaleCredentialsRequired`
when `requireRenew` and the ticket is not primary, and otherwise atomically
transitions the consumed flag, a second call observing `AlreadyConsumed`.
The store and lookup (`NotFound`) are external to the single-token state
modelled here. -/

structure TicketState where
  token : String
  service : String
  userName : String
  primary : Bool
  consumed : Bool
  expiresAt : Nat
deriving DecidableEq

def mkTicketState (st : STicket) (expiresAt : Nat) : TicketState :=
  { token := st.token, service := st.service, userName := st.userName,
    primary := st.primary, consumed := false, expiresAt := expiresAt }

inductive ConsumeError
  | expired
  | serviceMismatch
  | staleCredentialsRequired
  | alreadyConsumed
deriving DecidableEq

/-- Modelled from the spec: one `consume` call on the ticket's own state,
returning the outcome and the (possibly updated) state. The consumed check
together with the flag update is the atomic check-and-set: it is a single
step of this model. -/
def consume (t : TicketState) (now : Nat) (service : String) (requireRenew : Bool) :
    Except ConsumeError TicketState × TicketState :=
  if t.expiresAt ≤ now then (Except.error ConsumeError.expired, t)
  else if service ≠ t.service then (Except.error ConsumeError.serviceMismatch, t)
  else if requireRenew && !t.primary then
    (Except.error ConsumeError.staleCredentialsRequired, t)
  else if t.consumed then (Except.error ConsumeError.alreadyConsumed, t)
  else
    let updated := { t with consumed := true }
    (Except.ok updated, updated)

/-- Modelled from the spec: N concurrent `consume` calls on the same token.
Because each `consume` is one atomic step, any interleaving of the N calls is
a sequence of N steps on the shared ticket state; the list collects the
outcome observed by each caller in schedule order. -/
def runConsumes (now : Nat) (service : String) (requireRenew : Bool) :
    Nat → TicketState → List (Except ConsumeError TicketState) × TicketState
  | 0, t => ([], t)
  | Nat.succ n, t =>
    let step := consume t now service requireRenew
    let rest := runConsumes now service requireRenew n step.snd
    (step.fst :: rest.fst, rest.snd)

def isSuccess : Except ConsumeError TicketState → Bool
  | Except.ok _ => true
  | Except.error _ => false

def isAlreadyConsumed : Except ConsumeError TicketState → Bool
  | Except.error ConsumeError.alreadyConsumed => true
  | _ => false

def successCount (rs : List (Except ConsumeError TicketState)) : Nat :=
  (rs.filter isSuccess).length

def alreadyConsumedCount (rs : List (Except ConsumeError TicketState)) : Nat :=
  (rs.filter isAlreadyConsumed).length

/-! ## LoginView (views.py 47-166)

`LoginView.get` reads `service`, `renew`, `gateway` from the query string and
the `warn` flag from the session (`warn_user`), substitutes
`MAMA_CAS_DEFAULT_SERVICE` when no `service` parameter is present, and either
renders the login form (credential challenge), issues a `ServiceTicket` and
redirects, redirects without a ticket, or shows the logged-in status. -/

structure LoginRequest where
  service : Option String
  renew : Bool
  gateway : Bool
  authenticated : Bool
  userName : String
  warnFlag : Bool
deriving DecidableEq

inductive GetOutcome
  | challenge
  | loggedInStatus
  | redirect (url : String) (params : List (String × String))
  | warnRedirect (service ticket : String)
  | redirectLogin
deriving DecidableEq

/-- views.py 91-93: `self.service = request.GET.get('service')` and, when the
parameter is absent, `self.service = settings.MAMA_CAS_DEFAULT_SERVICE`. -/
def effectiveService (serviceParam : Option String) (defaultService : String) : String :=
  match serviceParam with
  | none => defaultService
  | some s => s

/-- views.py 95-121, `LoginView.get`. Python truthiness of `self.service` is
non-emptiness of the string; `newToken` stands for the token generated by
`create_ticket`. Returns the response outcome and the tickets created. -/
def loginGet (req : LoginRequest) (defaultService newToken : String) :
    GetOutcome × List STicket :=
  let service := effectiveService req.service defaultService
  if req.renew = true then
    (GetOutcome.challenge, [])
  else if req.gateway = true ∧ service ≠ "" then
    if req.authenticated = true then
      let st := create_ticket service req.userName newToken false
      if req.warnFlag = true then
        (GetOutcome.warnRedirect service st.token, [st])
      else
        (GetOutcome.redirect service [("ticket", st.token)], [st])
    else
      (GetOutcome.redirect service [], [])
  else if req.authenticated = true then
    if service ≠ "" then
      let st := create_ticket service req.userName newToken false
      if req.warnFlag = true then
        (GetOutcome.warnRedirect service st.token, [st])
      else
        (GetOutcome.redirect service [("ticket", st.token)], [st])
    else
      (GetOutcome.loggedInStatus, [])
  else
    (GetOutcome.challenge, [])

structure FormValidResult where
  sessionUser : String
  warnPersisted : Bool
  outcome : GetOutcome
  tickets : List STicket
deriving DecidableEq

/-- views.py 130-166, `LoginView.form_valid`: the session is established for
the authenticated form user (`login(self.request, form.user)`), the session
`warn` key is set when the `warn` form option was checked, and when the
`service` query parameter is truthy a `ServiceTicket` with `primary=True` is
created and the response redirects to the service with the ticket attached;
otherwise the response redirects back to the login page. -/
def form_valid (user : String) (warnOpt : Bool) (serviceParam : Option String)
    (newToken : String) : FormValidResult :=
  let service := serviceParam.getD ""
  if service ≠ "" then
    let st := create_ticket service user newToken true
    { sessionUser := user, warnPersisted := warnOpt,
      outcome := GetOutcome.redirect service [("ticket", st.token)],
      tickets := [st] }
  else
    { sessionUser := user, warnPersisted := warnOpt,
      outcome := GetOutcome.redirectLogin, tickets := [] }

/-! ## ValidateView (views.py 216-240)

The CAS 1.0 plaintext endpoint: `validate_service_ticket` (in
`mama_cas/cas.py`, outside the sources) yields either a ticket object or
`None`; the view renders `"yes\n<username>\n"` or `"no\n\n"` as
`text/plain`. -/

structure PlainResponse where
  content : String
  contentType : String
deriving DecidableEq

/-- views.py 235-240: the response built by `ValidateView.get` from the
validation outcome (`some` ticket on success, `none` on any failure). -/
def validateGet (st : Option STicket) : PlainResponse :=
  { content :=
      match st with
      | some t => "yes\n" ++ t.userName ++ "\n"
      | none => "no\n\n"
    contentType := "text/plain" }

/-! ## Federation redirect URIs (views.py 61-68 and 453-499)

`LoginView.get_context_data` embeds
`scheme://host<base>oauth?v=<provider>,<service>` as the `redirect_uri` of
every provider authorization URL, where `<base>` is the request path with a
trailing `login` stripped (views.py 88-90). `OAuthView.do_qq` and
`OAuthView.do_weibo` send `redirect_uri = http://<host>/oauth?v=<provider>,
<service>` with the token-exchange request; `do_github` and `do_wechat` send
no `redirect_uri` at all. -/

/-- Python `str.endswith`, on the character sequence of the string. -/
def strEndsWith (s pat : String) : Bool :=
  List.isSuffixOf pat.data s.data

/-- Python `s[:-n]`: the string without its last `n` characters. -/
def strDropRight (s : String) (n : Nat) : String :=
  String.mk (s.data.take (s.data.length - n))

/-- views.py 88-90: the base path used when building the authorization URLs
(the request path, with the trailing `login` removed when present). -/
def oauthBasePath (requestPath : String) : String :=
  if strEndsWith requestPath "login" then strDropRight requestPath 5 else requestPath

/-- views.py 65-68: the `redirect_uri` embedded in the provider authorization
URL built by `LoginView.get_context_data`. -/
def authorizationRedirectUri (scheme httpHost basePath provider service : String) :
    String :=
  scheme ++ "://" ++ httpHost ++ basePath ++ "oauth?v=" ++ provider ++ "," ++ service

/-- views.py 460 and 498: the `redirect_uri` sent with the QQ / Weibo
token-exchange request (scheme and base path are hardcoded). -/
def exchangeRedirectUri (host provider service : String) : String :=
  "http://" ++ host ++ "/oauth?v=" ++ provider ++ "," ++ service

/-! ## OAuthView federation handlers (views.py 364-535)

`__http_post` and `__http_get` (views.py 389-415) swallow every exception of
the request itself and return `None`; otherwise they return the JSON-decoded
object when the body parses (modelled as a key-value list) and the raw body
string when it does not. `__sync_user` returns the logged-in user or `None`.
The embeddings below take each external call's result as a parameter and
return `Except fault (outcome, created tickets)`: `Except.error` marks a
Python exception that no handler catches (subscripting `None` or a string,
calling a method `None` or a dict lacks, a missing key), which escapes the
view as an unhandled fault. -/

/-- Result of `__http_post` / `__http_get`: `failure` is Python `None` (the
request raised), `json` a decoded JSON object, `raw` an undecodable body
returned as the plain string. -/
inductive HttpResult
  | failure
  | json (fields : List (String × String))
  | raw (body : String)
deriving DecidableEq

def lookupField (fields : List (String × String)) (key : String) : Option String :=
  (fields.find? (fun p => p.fst == key)).map Prod.snd

/-- Python `needle in hay` on strings: substring containment. -/
def strContainsSub (hay needle : String) : Bool :=
  hay.data.tails.any (fun t => List.isPrefixOf needle.data t)

inductive OAuthOutcome
  | redirectWithTicket (service ticket : String)
  | failurePage (message : String)
deriving DecidableEq

/-- views.py 430-451, `OAuthView.do_github`. `postResult` is the
`__http_post` result for the access-token exchange, `profileResult` the
`__http_get` result for `api.github.com/user`, `authOk` whether
`__sync_user` returned a user. `if result:` is Python truthiness (`None`, an
empty dict and an empty string are falsy); `'access_token' in result` is a
key test on a dict but a substring test on a raw string, after which
`result['access_token']` on a string raises TypeError (no handler). On the
profile side `data['login']` raises TypeError when `data` is `None` or a
string, KeyError when the key is absent, as does `data['email']`. -/
def doGithub (postResult : HttpResult) (profileResult : HttpResult)
    (authOk : Bool) (service newToken : String) :
    Except String (OAuthOutcome × List STicket) :=
  match postResult with
  | HttpResult.failure => Except.ok (OAuthOutcome.failurePage "GitHub OAuth failed", [])
  | HttpResult.raw body =>
    if body = "" then Except.ok (OAuthOutcome.failurePage "GitHub OAuth failed", [])
    else if strContainsSub body "access_token" then
      Except.error "TypeError: string indices must be integers"
    else Except.ok (OAuthOutcome.failurePage "GitHub OAuth failed", [])
  | HttpResult.json result =>
    if result = [] then Except.ok (OAuthOutcome.failurePage "GitHub OAuth failed", [])
    else
      match lookupField result "access_token" with
      | none => Except.ok (OAuthOutcome.failurePage "GitHub OAuth failed", [])
      | some _accessToken =>
        match profileResult with
        | HttpResult.failure => Except.error "TypeError: NoneType is not subscriptable"
        | HttpResult.raw _ => Except.error "TypeError: string indices must be integers"
        | HttpResult.json data =>
          match lookupField data "login" with
          | none => Except.error "KeyError: login"
          | some login =>
            match lookupField data "email" with
            | none => Except.error "KeyError: email"
            | some _email =>
              let username := login ++ "_github"
              if authOk then
                let st := create_ticket service username newToken false
                Except.ok (OAuthOutcome.redirectWithTicket service st.token, [st])
              else
                Except.ok (OAuthOutcome.failurePage "GitHub OAuth failed", [])

/-- views.py 464-468: extraction of the access token from the urlencoded
token-exchange response body (`result.split('&')`, first field starting with
`access_token=`, value after `=`; the token stays empty when no such field
exists). -/
def extractQqAccessToken (body : String) : String :=
  match (body.splitOn "&").find? (fun t => "access_token=".isPrefixOf t) with
  | some t => (t.splitOn "=").getD 1 ""
  | none => ""

/-- views.py 453-489, `OAuthView.do_qq`. `postResult` is the `__http_post`
result of the token exchange: `if result:` is Python truthiness, then
`result.split('&')` raises AttributeError when the body decoded to a dict
and works only on a raw string (the usual urlencoded reply). `meResult` is
the `__http_get` result for `oauth2.0/me` (normally a JSONP string):
`data.startswith('callback')` raises AttributeError when it is `None` or a
dict. `openidParse` is the `json.loads(...)['openid']` step on the sliced
JSONP payload (`none` = ValueError/KeyError). `userInfoResult` is the
`get_user_info` result: `user_info['nickname']` raises TypeError when it is
`None` or a string. `pinyinInitial` is the `pinyin.get_initial` call. -/
def doQq (postResult : HttpResult) (meResult : HttpResult)
    (openidParse : String → Option String)
    (userInfoResult : HttpResult)
    (pinyinInitial : String → String)
    (authOk : Bool) (service newToken : String) :
    Except String (OAuthOutcome × List STicket) :=
  match postResult with
  | HttpResult.failure => Except.ok (OAuthOutcome.failurePage "QQ登录失败!", [])
  | HttpResult.json fields =>
    if fields = [] then Except.ok (OAuthOutcome.failurePage "QQ登录失败!", [])
    else Except.error "AttributeError: dict object has no attribute split"
  | HttpResult.raw result =>
    if result = "" then Except.ok (OAuthOutcome.failurePage "QQ登录失败!", [])
    else
      let _accessToken := extractQqAccessToken result
      match meResult with
      | HttpResult.failure =>
        Except.error "AttributeError: NoneType has no attribute startswith"
      | HttpResult.json _ =>
        Except.error "AttributeError: dict object has no attribute startswith"
      | HttpResult.raw data =>
        if "callback".isPrefixOf data then
          match openidParse ((data.drop 10).dropRight 3) with
          | none => Except.error "ValueError or KeyError: openid"
          | some _openid =>
            match userInfoResult with
            | HttpResult.failure => Except.error "TypeError: NoneType is not subscriptable"
            | HttpResult.raw _ => Except.error "TypeError: string indices must be integers"
            | HttpResult.json info =>
              match lookupField info "nickname" with
              | none => Except.error "KeyError: nickname"
              | some nickname =>
                let initials := pinyinInitial nickname
                if initials ≠ "" then
                  let username := initials ++ "_qq"
                  if authOk then
                    let st := create_ticket service username newToken false
                    Except.ok (OAuthOutcome.redirectWithTicket service st.token, [st])
                  else
                    Except.ok (OAuthOutcome.failurePage "QQ登录失败!", [])
                else
                  Except.ok (OAuthOutcome.failurePage "QQ登录失败!", [])
        else
          Except.ok (OAuthOutcome.failurePage "QQ登录失败!", [])

/-- The tickets created by a federation handler run (none when the run ended
in an unhandled fault, since ticket creation is the last step). -/
def federationTickets : Except String (OAuthOutcome × List STicket) → List STicket
  | Except.ok r => r.snd
  | Except.error _ => []

/-- A federation handler run that ends on the plaintext failure page issued
no service ticket. -/
def noTicketOnFailure : Except String (OAuthOutcome × List STicket) → Prop
  | Except.ok (OAuthOutcome.failurePage _, ts) => ts = []
  | _ => True

/-! ## Theorems -/

theorem consume_already (t : TicketState) (now : Nat) (requireRenew : Bool)
    (hc : t.consumed = true) (he : now < t.expiresAt)
    (hp : requireRenew = true → t.primary = true) :
    consume t now t.service requireRenew = (Except.error ConsumeError.alreadyConsumed, t) := by
  have hne : ¬ t.expiresAt ≤ now := by omega
  have hb : (requireRenew && !t.primary) = false := by
    cases requireRenew
    · rfl
    · simp [hp rfl]
  simp [consume, hne, hb, hc]

theorem consume_fresh (t : TicketState) (now : Nat) (requireRenew : Bool)
    (hc : t.consumed = false) (he : now < t.expiresAt)
    (hp : requireRenew = true → t.primary = true) :
    consume t now t.service requireRenew =
      (Except.ok { t with consumed := true }, { t with consumed := true }) := by
  have hne : ¬ t.expiresAt ≤ now := by omega
  have hb : (requireRenew && !t.primary) = false := by
    cases requireRenew
    · rfl
    · simp [hp rfl]
  simp [consume, hne, hb, hc]

theorem runConsumes_consumed (now : Nat) (requireRenew : Bool) :
    ∀ (n : Nat) (t : TicketState), t.consumed = true → now < t.expiresAt →
      (requireRenew = true → t.primary = true) →
      runConsumes now t.service requireRenew n t =
        (List.replicate n (Except.error ConsumeError.alreadyConsumed), t)
  | 0, _, _, _, _ => rfl
  | Nat.succ n, t, hc, he, hp => by
    have hstep := consume_already t now requireRenew hc he hp
    have hrest := runConsumes_consumed now requireRenew n t hc he hp
    simp [runConsumes, hstep, hrest, List.replicate_succ]

theorem successCount_replicate_already (n : Nat) :
    successCount (List.replicate n (Except.error ConsumeError.alreadyConsumed)) = 0 := by
  induction n with
  | zero => rfl
  | succ n ih =>
    simp [successCount, List.replicate_succ, List.filter_cons, isSuccess] at ih ⊢

theorem alreadyConsumedCount_replicate (n : Nat) :
    alreadyConsumedCount (List.replicate n (Except.error ConsumeError.alreadyConsumed)) = n := by
  induction n with
  | zero => rfl
  | succ n ih =>
    simp [alreadyConsumedCount, List.replicate_succ, List.filter_cons, isAlreadyConsumed] at ih ⊢

theorem successCount_cons_ok (u : TicketState) (rs : List (Except ConsumeError TicketState)) :
    successCount (Except.ok u :: rs) = successCount rs + 1 := by
  simp [successCount, List.filter_cons, isSuccess]

theorem alreadyConsumedCount_cons_ok (u : TicketState)
    (rs : List (Except ConsumeError TicketState)) :
    alreadyConsumedCount (Except.ok u :: rs) = alreadyConsumedCount rs := by
  simp [alreadyConsumedCount, List.filter_cons, isAlreadyConsumed]

/-- Claim C1: for every ticket token and every number N ≥ 1 of concurrent
`consume` calls on it (an arbitrary interleaving of the N atomic
check-and-set steps), exactly one call succeeds and the other N-1 observe
`AlreadyConsumed`, so no token is ever successfully consumed twice. The
hypotheses say the calls would individually succeed (not expired, matching
service, `renew` satisfied). -/
theorem C1_consume_exactly_once (t : TicketState) (now : Nat) (requireRenew : Bool)
    (n : Nat) (hc : t.consumed = false) (he : now < t.expiresAt)
    (hp : requireRenew = true → t.primary = true) (hn : 1 ≤ n) :
    successCount (runConsumes now t.service requireRenew n t).fst = 1 ∧
    alreadyConsumedCount (runConsumes now t.service requireRenew n t).fst = n - 1 := by
  obtain ⟨m, rfl⟩ : ∃ m, n = m + 1 := ⟨n - 1, by omega⟩
  have hstep := consume_fresh t now requireRenew hc he hp
  have hrun : runConsumes now t.service requireRenew m { t with consumed := true } =
      (List.replicate m (Except.error ConsumeError.alreadyConsumed),
        { t with consumed := true }) :=
    runConsumes_consumed now requireRenew m { t with consumed := true } rfl he hp
  have hall : runConsumes now t.service requireRenew (m + 1) t =
      (Except.ok { t with consumed := true } ::
        List.replicate m (Except.error ConsumeError.alreadyConsumed),
        { t with consumed := true }) := by
    simp [runConsumes, hstep, hrun]
  rw [hall]
  constructor
  · rw [successCount_cons_ok, successCount_replicate_already]
  · rw [alreadyConsumedCount_cons_ok, alreadyConsumedCount_replicate]
    omega

/-- Witness for C1: a concrete primary ticket, `renew` validation, three
concurrent callers. -/
theorem C1_consume_exactly_once_witness :
    successCount (runConsumes 0 "https://app.example/cb" true 3
      { token := "ST-1", service := "https://app.example/cb", userName := "alice",
        primary := true, consumed := false, expiresAt := 300 }).fst = 1 ∧
    alreadyConsumedCount (runConsumes 0 "https://app.example/cb" true 3
      { token := "ST-1", service := "https://app.example/cb", userName := "alice",
        primary := true, consumed := false, expiresAt := 300 }).fst = 2 :=
  C1_consume_exactly_once
    { token := "ST-1", service := "https://app.example/cb", userName := "alice",
      primary := true, consumed := false, expiresAt := 300 }
    0 true 3 rfl (by decide) (fun _ => rfl) (by decide)

/-- Claim C3: the v1 plaintext `/validate` response body is exactly
`"yes\n<username>\n"` on success and exactly `"no\n\n"` on any failure,
served as `text/plain`; no error kind, attribute or other field appears. -/
theorem C3_validate_plaintext :
    (∀ t : STicket, validateGet (some t) =
      { content := "yes\n" ++ t.userName ++ "\n", contentType := "text/plain" }) ∧
    validateGet none = { content := "no\n\n", contentType := "text/plain" } :=
  ⟨fun _ => rfl, rfl⟩

/-- Counterexample to claim C4 as stated: a GET /login with `gateway=true`, a
service parameter and no authenticated session, but also `renew=true`, is
answered with the credential challenge, not a redirect to the service. -/
theorem C4_counterexample :
    loginGet { service := some "https://app.example/cb", renew := true, gateway := true,
               authenticated := false, userName := "", warnFlag := false } "" "ST-4"
      = (GetOutcome.challenge, []) ∧
    (loginGet { service := some "https://app.example/cb", renew := true, gateway := true,
                authenticated := false, userName := "", warnFlag := false } "" "ST-4").fst
      ≠ GetOutcome.redirect "https://app.example/cb" [] := by
  exact ⟨rfl, by decide⟩

/-- Claim C4 (amended: `renew` additionally not set): a gateway request with a
service and no authenticated session redirects to the service with no ticket
query parameter and creates no ticket. -/
theorem C4_gateway_redirect_no_ticket (req : LoginRequest) (defaultService newToken : String)
    (hr : req.renew = false) (hg : req.gateway = true)
    (hs : effectiveService req.service defaultService ≠ "")
    (ha : req.authenticated = false) :
    loginGet req defaultService newToken =
      (GetOutcome.redirect (effectiveService req.service defaultService) [], []) := by
  simp [loginGet, hr, hg, hs, ha]

/-- Witness for the amended C4 at a concrete request. -/
theorem C4_gateway_redirect_no_ticket_witness :
    loginGet { service := some "https://app.example/cb", renew := false, gateway := true,
               authenticated := false, userName := "", warnFlag := false } "" "ST-4w"
      = (GetOutcome.redirect "https://app.example/cb" [], []) :=
  C4_gateway_redirect_no_ticket
    { service := some "https://app.example/cb", renew := false, gateway := true,
      authenticated := false, userName := "", warnFlag := false } "" "ST-4w"
    rfl rfl (by decide) rfl

/-- Claim C5: a GET /login with `renew=true` always results in the credential
challenge, whatever the session, `gateway` or `service`; no ticket is created
and no redirect to the service occurs. -/
theorem C5_renew_always_challenge (req : LoginRequest) (defaultService newToken : String)
    (hr : req.renew = true) :
    loginGet req defaultService newToken = (GetOutcome.challenge, []) := by
  simp [loginGet, hr]

/-- Witness for C5 at a concrete request with an active session, `gateway`
and a service all present. -/
theorem C5_renew_always_challenge_witness :
    loginGet { service := some "https://app.example/cb", renew := true, gateway := true,
               authenticated := true, userName := "alice", warnFlag := true }
      "https://default.example" "ST-5" = (GetOutcome.challenge, []) :=
  C5_renew_always_challenge
    { service := some "https://app.example/cb", renew := true, gateway := true,
      authenticated := true, userName := "alice", warnFlag := true }
    "https://default.example" "ST-5" rfl

/-- Claim C6: on both transparent issuance paths of GET /login (gateway with
session, existing session with service), a session carrying the `warn` flag
redirects to the warn confirmation with the service and pending ticket, never
directly to the service. -/
theorem C6_warn_gates_transparent_issuance (req : LoginRequest)
    (defaultService newToken : String)
    (hr : req.renew = false) (ha : req.authenticated = true)
    (hw : req.warnFlag = true)
    (hs : effectiveService req.service defaultService ≠ "") :
    (loginGet req defaultService newToken).fst =
      GetOutcome.warnRedirect (effectiveService req.service defaultService) newToken ∧
    ∀ url params, (loginGet req defaultService newToken).fst ≠
      GetOutcome.redirect url params := by
  have h1 : (loginGet req defaultService newToken).fst =
      GetOutcome.warnRedirect (effectiveService req.service defaultService) newToken := by
    by_cases hg : req.gateway = true
    · simp [loginGet, hr, hg, hs, ha, hw, create_ticket]
    · simp [loginGet, hr, hg, hs, ha, hw, create_ticket]
  refine ⟨h1, fun url params => ?_⟩
  rw [h1]
  simp

/-- Witness for C6: both the gateway path and the plain session path at
concrete requests with the warn flag set. -/
theorem C6_warn_gates_transparent_issuance_witness :
    (loginGet { service := some "https://app.example/cb", renew := false, gateway := false,
                authenticated := true, userName := "alice", warnFlag := true } "" "ST-6").fst
      = GetOutcome.warnRedirect "https://app.example/cb" "ST-6" ∧
    (loginGet { service := some "https://app.example/cb", renew := false, gateway := false,
                authenticated := true, userName := "alice", warnFlag := true } "" "ST-6").fst
      ≠ GetOutcome.redirect "https://app.example/cb" [("ticket", "ST-6")] ∧
    (loginGet { service := some "https://app.example/cb", renew := false, gateway := true,
                authenticated := true, userName := "alice", warnFlag := true } "" "ST-6g").fst
      = GetOutcome.warnRedirect "https://app.example/cb" "ST-6g" := by
  have h1 := C6_warn_gates_transparent_issuance
    { service := some "https://app.example/cb", renew := false, gateway := false,
      authenticated := true, userName := "alice", warnFlag := true } "" "ST-6"
    rfl rfl rfl (by decide)
  have h2 := C6_warn_gates_transparent_issuance
    { service := some "https://app.example/cb", renew := false, gateway := true,
      authenticated := true, userName := "alice", warnFlag := true } "" "ST-6g"
    rfl rfl rfl (by decide)
  exact ⟨h1.1, h1.2 "https://app.example/cb" [("ticket", "ST-6")], h2.1⟩

/-- Claim C7: a successful interactive credential presentation with a truthy
service parameter establishes the session for the authenticated user,
persists the `warn` option when requested, creates a `primary=true` service
ticket for that service and redirects to the service with the ticket. -/
theorem C7_interactive_login (user : String) (warnOpt : Bool) (s newToken : String)
    (hs : s ≠ "") :
    form_valid user warnOpt (some s) newToken =
      { sessionUser := user, warnPersisted := warnOpt,
        outcome := GetOutcome.redirect s [("ticket", newToken)],
        tickets := [{ service := s, userName := user, primary := true,
                      token := newToken }] } := by
  simp [form_valid, hs, create_ticket]

/-- Witness for C7 at a concrete user, warn option and service. -/
theorem C7_interactive_login_witness :
    form_valid "alice" true (some "https://app.example/cb") "ST-7" =
      { sessionUser := "alice", warnPersisted := true,
        outcome := GetOutcome.redirect "https://app.example/cb" [("ticket", "ST-7")],
        tickets := [{ service := "https://app.example/cb", userName := "alice",
                      primary := true, token := "ST-7" }] } :=
  C7_interactive_login "alice" true "https://app.example/cb" "ST-7" (by decide)

/-- Counterexample to claim C10 as stated: a GET /login with no service
parameter, a non-empty default service and an active session, but with
`renew=true`, results in the credential challenge and no ticket, not a
redirect to the default service. -/
theorem C10_counterexample :
    loginGet { service := none, renew := true, gateway := false, authenticated := true,
               userName := "alice", warnFlag := false } "https://default.example" "ST-10"
      = (GetOutcome.challenge, []) ∧
    (loginGet { service := none, renew := true, gateway := false, authenticated := true,
                userName := "alice", warnFlag := false } "https://default.example" "ST-10").fst
      ≠ GetOutcome.redirect "https://default.example" [("ticket", "ST-10")] := by
  exact ⟨rfl, by decide⟩

/-- Claim C10 (amended: `renew` additionally not set, and when the session
carries the warn flag the redirect goes to the warn confirmation instead):
with no service parameter the state machine uses `MAMA_CAS_DEFAULT_SERVICE`,
and with a non-empty default and an active session it issues a ticket for the
default service and redirects there (or to the warn step) instead of showing
the status page. -/
theorem C10_default_service (req : LoginRequest) (defaultService newToken : String)
    (hserv : req.service = none) (hr : req.renew = false)
    (ha : req.authenticated = true) (hd : defaultService ≠ "") :
    effectiveService req.service defaultService = defaultService ∧
    loginGet req defaultService newToken =
      (if req.warnFlag = true then
        (GetOutcome.warnRedirect defaultService newToken,
          [{ service := defaultService, userName := req.userName, primary := false,
             token := newToken }])
       else
        (GetOutcome.redirect defaultService [("ticket", newToken)],
          [{ service := defaultService, userName := req.userName, primary := false,
             token := newToken }])) := by
  have hes : effectiveService req.service defaultService = defaultService := by
    rw [hserv]
    rfl
  refine ⟨hes, ?_⟩
  by_cases hg : req.gateway = true
  · by_cases hw : req.warnFlag = true
    · simp [loginGet, hes, hr, hg, ha, hd, hw, create_ticket]
    · simp [loginGet, hes, hr, hg, ha, hd, hw, create_ticket]
  · by_cases hw : req.warnFlag = true
    · simp [loginGet, hes, hr, hg, ha, hd, hw, create_ticket]
    · simp [loginGet, hes, hr, hg, ha, hd, hw, create_ticket]

/-- Witness for the amended C10 at a concrete request without a service
parameter. -/
theorem C10_default_service_witness :
    effectiveService none "https://default.example" = "https://default.example" ∧
    loginGet { service := none, renew := false, gateway := false, authenticated := true,
               userName := "alice", warnFlag := false } "https://default.example" "ST-10w"
      = (GetOutcome.redirect "https://default.example" [("ticket", "ST-10w")],
          [{ service := "https://default.example", userName := "alice", primary := false,
             token := "ST-10w" }]) :=
  C10_default_service
    { service := none, renew := false, gateway := false, authenticated := true,
      userName := "alice", warnFlag := false }
    "https://default.example" "ST-10w" rfl rfl rfl (by decide)

/-- Claim C8 (code-bug evaluation): for the QQ flow of an https request with
the login view mounted at `/login`, the redirect URI embedded in the
authorization URL is the `https` one derived from the request, while the
redirect URI sent with the token exchange is hardcoded to `http` and the root
path; the two differ character for character. -/
theorem C8_redirect_uri_mismatch :
    authorizationRedirectUri "https" "cas.example.org" (oauthBasePath "/login") "qq"
        "https://app.example/cb"
      = "https://cas.example.org/oauth?v=qq,https://app.example/cb" ∧
    exchangeRedirectUri "cas.example.org" "qq" "https://app.example/cb"
      = "http://cas.example.org/oauth?v=qq,https://app.example/cb" ∧
    authorizationRedirectUri "https" "cas.example.org" (oauthBasePath "/login") "qq"
        "https://app.example/cb"
      ≠ exchangeRedirectUri "cas.example.org" "qq" "https://app.example/cb" := by
  have h1 : authorizationRedirectUri "https" "cas.example.org" (oauthBasePath "/login") "qq"
      "https://app.example/cb"
      = "https://cas.example.org/oauth?v=qq,https://app.example/cb" := rfl
  have h2 : exchangeRedirectUri "cas.example.org" "qq" "https://app.example/cb"
      = "http://cas.example.org/oauth?v=qq,https://app.example/cb" := rfl
  refine ⟨h1, h2, ?_⟩
  rw [h1, h2]
  decide

theorem doGithub_tickets_not_primary (post profile : HttpResult)
    (authOk : Bool) (service newToken : String) :
    ∀ st ∈ federationTickets (doGithub post profile authOk service newToken),
      st.primary = false := by
  cases post with
  | failure => simp [doGithub, federationTickets]
  | raw body =>
    by_cases hb : body = ""
    · simp [doGithub, federationTickets, hb]
    · by_cases hc : strContainsSub body "access_token" = true
      · simp [doGithub, federationTickets, hb, hc]
      · simp [doGithub, federationTickets, hb, hc]
  | json result =>
    by_cases hf : result = []
    · simp [doGithub, federationTickets, hf]
    · cases htok : lookupField result "access_token" with
      | none => simp [doGithub, federationTickets, hf, htok]
      | some tk =>
        cases profile with
        | failure => simp [doGithub, federationTickets, hf, htok]
        | raw pbody => simp [doGithub, federationTickets, hf, htok]
        | json data =>
          cases hlog : lookupField data "login" with
          | none => simp [doGithub, federationTickets, hf, htok, hlog]
          | some login =>
            cases hml : lookupField data "email" with
            | none => simp [doGithub, federationTickets, hf, htok, hlog, hml]
            | some mail =>
              cases authOk with
              | false => simp [doGithub, federationTickets, hf, htok, hlog, hml]
              | true =>
                simp [doGithub, federationTickets, hf, htok, hlog, hml, create_ticket]

theorem doQq_tickets_not_primary (postResult meResult : HttpResult)
    (openidParse : String → Option String)
    (userInfoResult : HttpResult)
    (pinyinInitial : String → String) (authOk : Bool) (service newToken : String) :
    ∀ st ∈ federationTickets
      (doQq postResult meResult openidParse userInfoResult pinyinInitial authOk
        service newToken), st.primary = false := by
  cases postResult with
  | failure => simp [doQq, federationTickets]
  | json fields =>
    by_cases hf : fields = []
    · simp [doQq, federationTickets, hf]
    · simp [doQq, federationTickets, hf]
  | raw result =>
    by_cases hr : result = ""
    · simp [doQq, federationTickets, hr]
    · cases meResult with
      | failure => simp [doQq, federationTickets, hr]
      | json mfields => simp [doQq, federationTickets, hr]
      | raw data =>
        by_cases hcb : "callback".isPrefixOf data = true
        · cases hop : openidParse ((data.drop 10).dropRight 3) with
          | none => simp [doQq, federationTickets, hr, hcb, hop]
          | some openid =>
            cases userInfoResult with
            | failure => simp [doQq, federationTickets, hr, hcb, hop]
            | raw ubody => simp [doQq, federationTickets, hr, hcb, hop]
            | json info =>
              cases hnick : lookupField info "nickname" with
              | none => simp [doQq, federationTickets, hr, hcb, hop, hnick]
              | some nickname =>
                by_cases hini : pinyinInitial nickname = ""
                · simp [doQq, federationTickets, hr, hcb, hop, hnick, hini]
                · cases authOk with
                  | false => simp [doQq, federationTickets, hr, hcb, hop, hnick, hini]
                  | true =>
                    simp [doQq, federationTickets, hr, hcb, hop, hnick, hini, create_ticket]
        · simp [doQq, federationTickets, hr, hcb]

/-- Counterexample to claim C2 as stated: a fully successful GitHub exchange
issues its service ticket with `primary = false` (the federated paths call
`create_ticket` without `primary=True`), not `primary = true`. -/
theorem C2_counterexample :
    doGithub (HttpResult.json [("access_token", "gho_t")])
        (HttpResult.json [("login", "alice"), ("email", "alice@example.org")]) true
        "https://app.example/cb" "ST-2c"
      = Except.ok (OAuthOutcome.redirectWithTicket "https://app.example/cb" "ST-2c",
          [{ service := "https://app.example/cb", userName := "alice_github",
             primary := false, token := "ST-2c" }]) ∧
    ({ service := "https://app.example/cb", userName := "alice_github",
       primary := false, token := "ST-2c" } : STicket).primary ≠ true := by
  exact ⟨rfl, by decide⟩

/-- Claim C2 (amended): every service ticket issued by a federated login flow
(GitHub/QQ as modelled; Weibo and WeChat call `create_ticket` the same way)
has `primary = false`, unlike the interactive path, so a later validation
with `renew=true` of such a ticket fails with `StaleCredentialsRequired`
instead of succeeding. -/
theorem C2_federated_not_primary
    (post profile : HttpResult) (authOk : Bool)
    (s tok : String) (qpost me : HttpResult) (op : String → Option String)
    (ui : HttpResult) (pin : String → String)
    (authOk2 : Bool) (s2 tok2 : String) (st : STicket)
    (hm : st ∈ federationTickets (doGithub post profile authOk s tok) ∨
          st ∈ federationTickets (doQq qpost me op ui pin authOk2 s2 tok2)) :
    st.primary = false ∧
    ∀ now expiresAt : Nat, now < expiresAt →
      (consume (mkTicketState st expiresAt) now st.service true).fst
        = Except.error ConsumeError.staleCredentialsRequired := by
  have hp : st.primary = false := by
    cases hm with
    | inl h => exact doGithub_tickets_not_primary post profile authOk s tok st h
    | inr h => exact doQq_tickets_not_primary qpost me op ui pin authOk2 s2 tok2 st h

  refine ⟨hp, fun now expiresAt hlt => ?_⟩
  have hne : ¬ expiresAt ≤ now := by omega
  simp [consume, mkTicketState, hne, hp]

/-- Witness for the amended C2: the ticket issued by a concrete successful
GitHub exchange is not primary, and its `renew` validation fails stale. -/
theorem C2_federated_not_primary_witness :
    ({ service := "https://app.example/cb", userName := "alice_github",
       primary := false, token := "ST-2w" } : STicket).primary = false ∧
    (consume (mkTicketState
        { service := "https://app.example/cb", userName := "alice_github",
          primary := false, token := "ST-2w" } 300) 0 "https://app.example/cb" true).fst
      = Except.error ConsumeError.staleCredentialsRequired := by
  have h := C2_federated_not_primary (HttpResult.json [("access_token", "gho_t")])
    (HttpResult.json [("login", "alice"), ("email", "alice@example.org")]) true
    "https://app.example/cb" "ST-2w" HttpResult.failure HttpResult.failure
    (fun _ => none) HttpResult.failure (fun s => s) true "" ""
    { service := "https://app.example/cb", userName := "alice_github",
      primary := false, token := "ST-2w" }
    (Or.inl (by decide))
  exact ⟨h.1, h.2 0 300 (by decide)⟩

/-- Counterexample to claim C9 as stated: in the QQ callback, when the token
exchange succeeds but the `oauth2.0/me` fetch fails (returns `None`), the
code calls `data.startswith('callback')` on `None` and raises an unhandled
AttributeError instead of returning the coarse plaintext failure. -/
theorem C9_counterexample :
    doQq (HttpResult.raw "access_token=abc&expires_in=7776000") HttpResult.failure
      (fun _ => none) HttpResult.failure (fun s => s) true
      "https://app.example/cb" "ST-9c"
      = Except.error "AttributeError: NoneType has no attribute startswith" := rfl

/-- Claim C9 (amended): a token-exchange request that raises (a `None`
result) or returns a falsy body yields the single coarse plaintext failure
with no service ticket issued, and no plaintext-failure outcome ever issues
a ticket; but other adapter failures raise unhandled faults: an undecodable
GitHub token-exchange body containing `access_token` raises TypeError, a
decoded-dict QQ exchange body raises AttributeError on `split`, and a `me`
fetch returning `None` after a successful QQ exchange raises
AttributeError. -/
theorem C9_failure_handling
    (post profile : HttpResult) (authOk : Bool) (s tok : String)
    (qpost me : HttpResult) (op : String → Option String)
    (ui : HttpResult) (pin : String → String)
    (authOk2 : Bool) (s2 tok2 : String) :
    doGithub HttpResult.failure profile authOk s tok
      = Except.ok (OAuthOutcome.failurePage "GitHub OAuth failed", []) ∧
    doQq HttpResult.failure me op ui pin authOk2 s2 tok2
      = Except.ok (OAuthOutcome.failurePage "QQ登录失败!", []) ∧
    doGithub (HttpResult.raw "") profile authOk s tok
      = Except.ok (OAuthOutcome.failurePage "GitHub OAuth failed", []) ∧
    doQq (HttpResult.raw "") me op ui pin authOk2 s2 tok2
      = Except.ok (OAuthOutcome.failurePage "QQ登录失败!", []) ∧
    noTicketOnFailure (doGithub post profile authOk s tok) ∧
    noTicketOnFailure (doQq qpost me op ui pin authOk2 s2 tok2) ∧
    (∀ body, body ≠ "" → strContainsSub body "access_token" = true →
      doGithub (HttpResult.raw body) profile authOk s tok
        = Except.error "TypeError: string indices must be integers") ∧
    (∀ fields, fields ≠ [] →
      doQq (HttpResult.json fields) me op ui pin authOk2 s2 tok2
        = Except.error "AttributeError: dict object has no attribute split") ∧
    (∀ body, body ≠ "" →
      doQq (HttpResult.raw body) HttpResult.failure op ui pin authOk2 s2 tok2
        = Except.error "AttributeError: NoneType has no attribute startswith") := by
  refine ⟨rfl, rfl, by simp [doGithub], by simp [doQq], ?_, ?_, ?_, ?_, ?_⟩
  · cases post with
    | failure => simp [doGithub, noTicketOnFailure]
    | raw body =>
      by_cases hb : body = ""
      · simp [doGithub, noTicketOnFailure, hb]
      · by_cases hc : strContainsSub body "access_token" = true
        · simp [doGithub, noTicketOnFailure, hb, hc]
        · simp [doGithub, noTicketOnFailure, hb, hc]
    | json result =>
      by_cases hf : result = []
      · simp [doGithub, noTicketOnFailure, hf]
      · cases htok : lookupField result "access_token" with
        | none => simp [doGithub, noTicketOnFailure, hf, htok]
        | some tk =>
          cases profile with
          | failure => simp [doGithub, noTicketOnFailure, hf, htok]
          | raw pbody => simp [doGithub, noTicketOnFailure, hf, htok]
          | json data =>
            cases hlog : lookupField data "login" with
            | none => simp [doGithub, noTicketOnFailure, hf, htok, hlog]
            | some login =>
              cases hml : lookupField data "email" with
              | none => simp [doGithub, noTicketOnFailure, hf, htok, hlog, hml]
              | some mail =>
                cases authOk with
                | false => simp [doGithub, noTicketOnFailure, hf, htok, hlog, hml]
                | true =>
                  simp [doGithub, noTicketOnFailure, hf, htok, hlog, hml, create_ticket]
  · cases qpost with
    | failure => simp [doQq, noTicketOnFailure]
    | json fields =>
      by_cases hf : fields = []
      · simp [doQq, noTicketOnFailure, hf]
      · simp [doQq, noTicketOnFailure, hf]
    | raw result =>
      by_cases hr : result = ""
      · simp [doQq, noTicketOnFailure, hr]
      · cases me with
        | failure => simp [doQq, noTicketOnFailure, hr]
        | json mfields => simp [doQq, noTicketOnFailure, hr]
        | raw data =>
          by_cases hcb : "callback".isPrefixOf data = true
          · cases hop : op ((data.drop 10).dropRight 3) with
            | none => simp [doQq, noTicketOnFailure, hr, hcb, hop]
            | some openid =>
              cases ui with
              | failure => simp [doQq, noTicketOnFailure, hr, hcb, hop]
              | raw ubody => simp [doQq, noTicketOnFailure, hr, hcb, hop]
              | json info =>
                cases hnick : lookupField info "nickname" with
                | none => simp [doQq, noTicketOnFailure, hr, hcb, hop, hnick]
                | some nickname =>
                  by_cases hini : pin nickname = ""
                  · simp [doQq, noTicketOnFailure, hr, hcb, hop, hnick, hini]
                  · cases authOk2 with
                    | false => simp [doQq, noTicketOnFailure, hr, hcb, hop, hnick, hini]
                    | true =>
                      simp [doQq, noTicketOnFailure, hr, hcb, hop, hnick, hini,
                        create_ticket]
          · simp [doQq, noTicketOnFailure, hr, hcb]
  · intro body h1 h2
    simp [doGithub, h1, h2]
  · intro fields h1
    simp [doQq, h1]
  · intro body h1
    simp [doQq, h1]

/-- Witness for the amended C9 at concrete failed exchanges. -/
theorem C9_failure_handling_witness :
    doGithub HttpResult.failure HttpResult.failure true "https://app.example/cb" "ST-9a"
      = Except.ok (OAuthOutcome.failurePage "GitHub OAuth failed", []) ∧
    doQq HttpResult.failure HttpResult.failure (fun _ => none) HttpResult.failure
      (fun s => s) true "https://app.example/cb" "ST-9b"
      = Except.ok (OAuthOutcome.failurePage "QQ登录失败!", []) ∧
    doGithub (HttpResult.raw "access_token=gho_w&scope=repo") HttpResult.failure true
      "https://app.example/cb" "ST-9a"
      = Except.error "TypeError: string indices must be integers" ∧
    doQq (HttpResult.json [("access_token", "t")]) HttpResult.failure (fun _ => none)
      HttpResult.failure (fun s => s) true "https://app.example/cb" "ST-9b"
      = Except.error "AttributeError: dict object has no attribute split" ∧
    doQq (HttpResult.raw "error=1") HttpResult.failure (fun _ => none)
      HttpResult.failure (fun s => s) true "https://app.example/cb" "ST-9b"
      = Except.error "AttributeError: NoneType has no attribute startswith" := by
  have h := C9_failure_handling HttpResult.failure HttpResult.failure true
    "https://app.example/cb" "ST-9a" HttpResult.failure HttpResult.failure
    (fun _ => none) HttpResult.failure (fun s => s) true "https://app.example/cb" "ST-9b"
  exact ⟨h.1, h.2.1,
    h.2.2.2.2.2.2.1 "access_token=gho_w&scope=repo" (by decide) (by decide),
    h.2.2.2.2.2.2.2.1 [("access_token", "t")] (by decide),
    h.2.2.2.2.2.2.2.2 "error=1" (by decide)⟩

end MamaCas
